import Mathlib

/-
Shallow embedding of the JalRakshak AI service core
(src/ai-service/src/app.py and src/ai-service/src/services/).

Modelling conventions:
* Python floats are embedded as exact rationals; all decision logic in the
  source is comparisons and field arithmetic on such values.
* Python dicts returned by the detectors are embedded as structures; a key
  that is absent in some branch becomes an Option field holding none there.
* Description strings built by float interpolation are pure diagnostics and
  are not modelled; every decision-relevant field is.
* Comparisons of the source against square-root quantities (standard
  deviation, Pearson correlation) are embedded by equivalent squared
  inequalities over rationals, documented at each definition.
* The persisted scikit-learn models (isolation forest, random-forest
  regressor) are external state loaded from disk; their numeric output is
  abstracted as a function parameter, while the state transitions performed
  by update_model are embedded explicitly.
-/

/-- Python truthiness of an optional float argument: None and 0 are falsy.
    Used by the gps attachment checks in leak_detector.detect and
    contamination_detector.detect. -/
def truthy : Option ℚ → Prop
  | none => False
  | some x => x ≠ 0

instance (o : Option ℚ) : Decidable (truthy o) :=
  match o with
  | none => isFalse (fun h => h)
  | some x => inferInstanceAs (Decidable (x ≠ 0))

/-- Minimum of a list, as np.min; the source only applies it to nonempty
    lists (length at least 10), so the empty case is a junk value. -/
def listMin : List ℚ → ℚ
  | [] => 0
  | x :: xs => xs.foldl min x

/-- First index attaining the minimum, as np.argmin. -/
def listArgmin (l : List ℚ) : ℕ :=
  (l.foldl
    (fun acc x =>
      let best := acc.1
      let i := acc.2.1
      let bv := acc.2.2
      if x < bv then (i, i + 1, x) else (best, i + 1, bv))
    ((0 : ℕ), (0 : ℕ), l.headD 0)).1

/-- Arithmetic mean, as np.mean. -/
def listMean (l : List ℚ) : ℚ := l.sum / (l.length : ℚ)

/-- Population variance, as the square of np.std (default ddof = 0). -/
def listVar (l : List ℚ) : ℚ :=
  ((l.map (fun x => (x - listMean l) ^ 2)).sum) / (l.length : ℚ)

/-- np.gradient of a 1-dimensional array: one-sided differences at the two
    ends, central differences inside. The source only applies it to arrays
    of length at least 10. -/
def npGradient (a : List ℚ) : List ℚ :=
  (List.range a.length).map fun i =>
    if i = 0 then a.getD 1 0 - a.getD 0 0
    else if i = a.length - 1 then a.getD (a.length - 1) 0 - a.getD (a.length - 2) 0
    else (a.getD (i + 1) 0 - a.getD (i - 1) 0) / 2

/-- The comparison np.corrcoef(x, y)[0, 1] < -0.5 of the source, embedded
    without square roots.  Writing cx = n * sum xy - sum x * sum y,
    vx = n * sum xx - (sum x)^2, vy likewise, the Pearson coefficient is
    cx / sqrt (vx * vy), so for positive variances the comparison is
    equivalent to cx < 0 and vx * vy < 4 * cx^2.  When a variance is zero
    numpy yields nan and the comparison is False, matching the vx, vy
    positivity guards here.  Caller guarantees equal lengths. -/
def corrBelowNegHalf (x y : List ℚ) : Bool :=
  let n : ℚ := (x.length : ℚ)
  let sx := x.sum
  let sy := y.sum
  let sxx := (x.map (fun v => v ^ 2)).sum
  let syy := (y.map (fun v => v ^ 2)).sum
  let sxy := (List.zipWith (fun a b => a * b) x y).sum
  let cx := n * sxy - sx * sy
  let vx := n * sxx - sx ^ 2
  let vy := n * syy - sy ^ 2
  decide (0 < vx ∧ 0 < vy ∧ cx < 0 ∧ vx * vy < 4 * cx ^ 2)

/-- The comparison recent_pressure < pressure_mean - 2 * pressure_std of the
    source, embedded without square roots: with d = mean - recent and v the
    population variance, d > 2 * sqrt v is equivalent to 0 < d and
    4 * v < d^2 (consistent at v = 0, where std is 0). -/
def statOutlier (x : List ℚ) : Bool :=
  let m := listMean x
  let v := listVar x
  let recent := listMean (x.drop (x.length - 5))
  decide (0 < m - recent ∧ 4 * v < (m - recent) ^ 2)

/-- Least-squares slope of np.polyfit(range(len y), y, 1), the exact normal
    equation solution for a degree-1 fit. -/
def polyfitSlope (y : List ℚ) : ℚ :=
  let n : ℚ := (y.length : ℚ)
  let xs : List ℚ := (List.range y.length).map (fun i => (i : ℚ))
  let sx := xs.sum
  let sy := y.sum
  let sxy := (List.zipWith (fun a b => a * b) xs y).sum
  let sxx := (xs.map (fun v => v ^ 2)).sum
  (n * sxy - sx * sy) / (n * sxx - sx ^ 2)

/-- gps_estimate dict of the detectors. -/
structure GpsEstimate where
  lat : ℚ
  lon : ℚ
  confidence : ℚ
  method : String
deriving DecidableEq

/-- Result dict of LeakDetector.detect. -/
structure LeakResult where
  leak_detected : Bool
  confidence : ℚ
  gps_estimate : Option GpsEstimate
  pressure : ℚ
  flow_rate : ℚ
deriving DecidableEq

/-- The if/elif cascade of LeakDetector.detect assigning
    (leak_detected, confidence). -/
def LeakDetector.detectCore (pressure flow_rate : ℚ) : Bool × ℚ :=
  if pressure < 2 ∧ 0 < flow_rate then (true, 7/10)
  else if pressure < 3/2 then (true, 9/10)
  else if 50 < flow_rate ∧ pressure < 3 then (true, 4/5)
  else (false, 0)

/-- LeakDetector.detect from leak_detector.py: instantaneous rule cascade
    plus gps attachment guarded by Python truthiness of both coordinates. -/
def LeakDetector.detect (pressure flow_rate : ℚ) (gps_lat gps_lon : Option ℚ) : LeakResult :=
  let r := LeakDetector.detectCore pressure flow_rate
  let gps_estimate : Option GpsEstimate :=
    if r.1 = true ∧ truthy gps_lat ∧ truthy gps_lon then
      some { lat := gps_lat.getD 0, lon := gps_lon.getD 0,
             confidence := r.2, method := "sensor_location" }
    else none
  { leak_detected := r.1, confidence := r.2, gps_estimate := gps_estimate,
    pressure := pressure, flow_rate := flow_rate }

/-- Result dict of LeakDetector.detect_with_history.  The float diagnostics
    correlation and pressure_stats echo irrational intermediate values
    (square roots) and are referenced by no claim; they are omitted.  The
    insufficient-data branch of the source returns a dict without the
    location and pressure_drop keys, embedded as none. -/
structure LeakHistResult where
  leak_detected : Bool
  confidence : ℚ
  message : Option String
  leak_location_estimate : Option (ℕ × ℚ)
  pressure_drop : Option ℚ
deriving DecidableEq

/-- LeakDetector.detect_with_history from leak_detector.py.  np.corrcoef
    raises ValueError when the two series have different lengths (its
    internal stacking requires equal shapes), embedded as the error case;
    all other paths are total.  The three signal weights are accumulated
    exactly as in the source and capped by min at 1. -/
def LeakDetector.detect_with_history (pressure_data flow_data : List ℚ) :
    Except String LeakHistResult :=
  if pressure_data.length < 10 ∨ flow_data.length < 10 then
    .ok { leak_detected := false, confidence := 0,
          message := some ("Insufficient data for leak detection"),
          leak_location_estimate := none, pressure_drop := none }
  else if pressure_data.length = flow_data.length then
    let g := npGradient pressure_data
    let pressure_drop := listMin g
    let w1 : ℚ := if pressure_drop < -(3/10) then 2/5 else 0
    let w2 : ℚ := if corrBelowNegHalf pressure_data flow_data = true then 3/10 else 0
    let w3 : ℚ := if statOutlier pressure_data = true then 3/10 else 0
    let leak_detected :=
      decide (pressure_drop < -(3/10)) || corrBelowNegHalf pressure_data flow_data
        || statOutlier pressure_data
    .ok { leak_detected := leak_detected,
          confidence := min (w1 + w2 + w3) 1,
          message := none,
          leak_location_estimate :=
            if leak_detected = true then some (listArgmin g, pressure_drop) else none,
          pressure_drop := some pressure_drop }
  else .error "np.corrcoef: x and y must have the same length"

/-- Result dict of ContaminationDetector.detect (description, a float
    interpolation, omitted). -/
structure ContaminationResult where
  contamination_detected : Bool
  severity : String
  confidence : ℚ
  turbidity : ℚ
  temperature : ℚ
  gps_estimate : Option GpsEstimate
  recommended_action : String
deriving DecidableEq

/-- The turbidity if/elif cascade of ContaminationDetector.detect, yielding
    (contamination_detected, severity, confidence) before the temperature
    check; thresholds are the constructor constants 10, 7 and 5 NTU. -/
def ContaminationDetector.turbidityBand (turbidity : ℚ) : Bool × String × ℚ :=
  if 10 ≤ turbidity then (true, "critical", 19/20)
  else if 7 ≤ turbidity then (true, "high", 4/5)
  else if 5 ≤ turbidity then (true, "medium", 3/5)
  else (false, "low", 0)

/-- The temperature-anomaly adjustment of ContaminationDetector.detect:
    outside the (15, 35) range the confidence of an already detected
    contamination is bumped by 0.1 capped at 1, otherwise a low-severity
    detection at confidence 0.5 is produced. -/
def ContaminationDetector.core (turbidity temperature : ℚ) : Bool × String × ℚ :=
  let b := ContaminationDetector.turbidityBand turbidity
  if temperature < 15 ∨ 35 < temperature then
    if b.1 = true then (true, b.2.1, min (b.2.2 + 1/10) 1)
    else (true, "low", 1/2)
  else b

/-- ContaminationDetector.get_action lookup table. -/
def ContaminationDetector.get_action (severity : String) : String :=
  if severity = "critical" then
    "IMMEDIATE: Stop water supply. Notify health authorities. Conduct emergency water quality test."
  else if severity = "high" then
    "URGENT: Issue public advisory. Increase monitoring frequency. Investigate contamination source."
  else if severity = "medium" then
    "Monitor closely. Increase sampling frequency. Check upstream sources."
  else if severity = "low" then
    "Continue monitoring. Review sensor calibration."
  else "Monitor and investigate"

/-- ContaminationDetector.detect from contamination_detector.py. -/
def ContaminationDetector.detect (turbidity temperature : ℚ)
    (gps_lat gps_lon : Option ℚ) : ContaminationResult :=
  let c := ContaminationDetector.core turbidity temperature
  let gps_estimate : Option GpsEstimate :=
    if c.1 = true ∧ truthy gps_lat ∧ truthy gps_lon then
      some { lat := gps_lat.getD 0, lon := gps_lon.getD 0,
             confidence := c.2.2, method := "sensor_location" }
    else none
  { contamination_detected := c.1, severity := c.2.1, confidence := c.2.2,
    turbidity := turbidity, temperature := temperature,
    gps_estimate := gps_estimate,
    recommended_action := ContaminationDetector.get_action c.2.1 }

/-- Result dict of ContaminationDetector.detect_pattern.  The
    insufficient-data branch of the source returns only the detection flag
    and a message: every other key, including confidence, is absent there,
    embedded as none. -/
structure PatternResult where
  contamination_detected : Bool
  spike_detected : Option Bool
  increasing_trend : Option Bool
  current_turbidity : Option ℚ
  baseline_turbidity : Option ℚ
  confidence : Option ℚ
  message : Option String
deriving DecidableEq

/-- ContaminationDetector.detect_pattern from contamination_detector.py.
    The spike comparison current > mean + 3 * std over the all-but-last
    prefix is embedded by the squared inequality (see statOutlier); the
    trend test uses the exact least-squares slope of the last 10 readings.
    temperature_history is converted but never used by the source. -/
def ContaminationDetector.detect_pattern (turbidity_history temperature_history : List ℚ) :
    PatternResult :=
  if turbidity_history.length < 5 then
    { contamination_detected := false, spike_detected := none, increasing_trend := none,
      current_turbidity := none, baseline_turbidity := none, confidence := none,
      message := some ("Insufficient data") }
  else
    let prev := turbidity_history.dropLast
    let m := listMean prev
    let v := listVar prev
    let current := turbidity_history.getLastD 0
    let spike := decide (0 < current - m ∧ 9 * v < (current - m) ^ 2)
    let increasing_trend :=
      if 10 ≤ turbidity_history.length then
        decide (1/10 < polyfitSlope (turbidity_history.drop (turbidity_history.length - 10)))
      else false
    { contamination_detected := spike || (increasing_trend && decide (5 < current)),
      spike_detected := some spike, increasing_trend := some increasing_trend,
      current_turbidity := some current, baseline_turbidity := some m,
      confidence := some (if spike = true then 7/10 else 1/2),
      message := none }

/-- Result dict of AnomalyDetector.detect (description omitted: it is a
    float interpolation template keyed by the type). -/
structure AnomalyResult where
  anomaly_detected : Bool
  anomaly_type : Option String
  severity : String
  confidence : ℚ
  recommended_action : String
deriving DecidableEq

/-- The ordered rule cascade of AnomalyDetector.detect assigning
    (anomaly_type, severity) once the model has flagged the sample; the
    normal_ranges constants are inlined as in the source (pressure 2 to 8,
    flow lower bound 5 halved to 2.5, turbidity upper bound 5). -/
def AnomalyDetector.classify (flow_rate pressure turbidity : ℚ) : String × String :=
  if pressure < 2 ∨ 8 < pressure then
    ("pressure_anomaly",
      if pressure < 1 then "critical" else if pressure < 3/2 then "high" else "medium")
  else if flow_rate < 5 * (1/2) then
    ("low_flow", if flow_rate < 1 then "high" else "medium")
  else if 5 < turbidity then
    ("contamination",
      if 10 < turbidity then "critical" else if 7 < turbidity then "high" else "medium")
  else if 20 < |flow_rate - pressure * 5| then
    ("leak", "high")
  else ("general_anomaly", "medium")

/-- AnomalyDetector.get_recommended_action lookup table. -/
def AnomalyDetector.get_recommended_action (ty : String) : String :=
  if ty = "pressure_anomaly" then "Check pump operation and pipeline integrity"
  else if ty = "low_flow" then "Inspect for blockages or valve issues"
  else if ty = "contamination" then
    "Immediate water quality test required. Notify health authorities."
  else if ty = "leak" then
    "Dispatch field team to investigate leak. Use GPS coordinates for location."
  else if ty = "general_anomaly" then
    "Review sensor readings and perform diagnostic check"
  else "Investigate anomaly"

/-- AnomalyDetector.detect from anomaly_detector.py.  The scaler transform
    followed by the persisted isolation-forest predict and score_samples is
    external trained state (model files, not src); it is abstracted as the
    score parameter returning (is_outlier, anomaly_score) for the raw
    feature vector.  Everything downstream of that call is embedded
    exactly: confidence min(abs(score) * 100, 100) and the rule cascade. -/
def AnomalyDetector.detect (score : ℚ → ℚ → ℚ → ℚ → Bool × ℚ)
    (flow_rate pressure turbidity temperature : ℚ) : AnomalyResult :=
  let s := score flow_rate pressure turbidity temperature
  let confidence := min (|s.2| * 100) 100
  if s.1 = true then
    let c := AnomalyDetector.classify flow_rate pressure turbidity
    { anomaly_detected := true, anomaly_type := some c.1, severity := c.2,
      confidence := confidence,
      recommended_action := AnomalyDetector.get_recommended_action c.1 }
  else
    { anomaly_detected := false, anomaly_type := none, severity := "low",
      confidence := confidence, recommended_action := "Continue monitoring" }

/-- Record of the historical_data lists consumed by
    MaintenancePredictor.predict; every key is read with dict.get and may
    be absent. -/
structure MaintRecord where
  flow_rate : Option ℚ
  pressure : Option ℚ
  turbidity : Option ℚ
  temperature : Option ℚ
  pump_status : Option String
deriving DecidableEq, Inhabited

/-- Result dict of MaintenancePredictor.predict; keys absent in one of the
    two branches of the source are Option fields. -/
structure MaintenanceResult where
  maintenance_needed : Bool
  days_until_maintenance : Option ℚ
  urgency : Option String
  confidence : ℚ
  message : Option String
  recommended_actions : Option (List String)
deriving DecidableEq

/-- MaintenancePredictor.get_recommended_actions lookup table. -/
def MaintenancePredictor.get_recommended_actions (urgency : String) : List String :=
  if urgency = "critical" then
    ["Schedule immediate maintenance", "Check pump motor and bearings",
     "Inspect pipeline for leaks", "Review sensor calibrations"]
  else if urgency = "high" then
    ["Schedule maintenance within 3 days", "Monitor pump performance closely",
     "Check for unusual vibrations or sounds", "Review recent sensor readings"]
  else if urgency = "medium" then
    ["Schedule maintenance within 1 week", "Continue regular monitoring",
     "Prepare maintenance checklist"]
  else if urgency = "low" then
    ["Continue regular monitoring", "Schedule routine maintenance as per schedule"]
  else []

/-- MaintenancePredictor.predict from maintenance_predictor.py.  The
    persisted random-forest regressor applied to the extracted feature
    vector is external trained state (model file, not src); the composite
    model.predict(extract_features(data)) is abstracted as the predictDays
    parameter.  The length gate, urgency bands and the confidence formula
    min(len / 100, 1) are embedded exactly. -/
def MaintenancePredictor.predict (predictDays : List MaintRecord → ℚ)
    (historical_data : List MaintRecord) : MaintenanceResult :=
  if historical_data.length < 30 then
    { maintenance_needed := false, days_until_maintenance := none, urgency := none,
      confidence := 0,
      message := some ("Insufficient historical data (need at least 30 readings)"),
      recommended_actions := none }
  else
    let prediction := predictDays historical_data
    let urgency :=
      if prediction < 1 then "critical"
      else if prediction < 3 then "high"
      else if prediction < 7 then "medium"
      else "low"
    { maintenance_needed := decide (prediction < 7),
      days_until_maintenance := some prediction,
      urgency := some urgency,
      confidence := min ((historical_data.length : ℚ) / 100) 1,
      message := none,
      recommended_actions := some (MaintenancePredictor.get_recommended_actions urgency) }

/-- Fitted state of the StandardScaler: per-feature mean and variance, or
    unfitted after a reset. -/
inductive ScalerState
  | unfitted
  | fitted (mean : List ℚ) (variance : List ℚ)
deriving DecidableEq

/-- Trained state of the IsolationForest.  Fitting with the fixed seed of
    the source is a deterministic function of the scaled training matrix,
    itself determined by the fitting scaler and the raw rows; the trained
    ensemble is therefore represented by that pair. -/
inductive ForestState
  | unfitted
  | fitted (scaler : ScalerState) (rows : List (List ℚ))
deriving DecidableEq

/-- The mutable state of AnomalyDetector: self.scaler and self.model. -/
structure AnomalyModelState where
  scaler : ScalerState
  forest : ForestState
deriving DecidableEq

/-- np.array over a list of rows: raises ValueError on ragged nested rows,
    otherwise yields the rows (an empty list becomes an empty array). -/
def npArray2D (rows : List (List ℚ)) : Except String (List (List ℚ)) :=
  if rows.all (fun r => r.length = (rows.headD []).length) then .ok rows
  else .error "setting an array element with a sequence: ragged rows"

/-- Input validation of StandardScaler.fit: a 2-dimensional matrix with at
    least one sample and at least one feature. -/
def scalerInputValid (X : List (List ℚ)) : Bool :=
  decide (1 ≤ X.length) && decide (1 ≤ (X.headD []).length)

/-- Column means of a rectangular matrix. -/
def colMeans (X : List (List ℚ)) : List ℚ :=
  (List.range (X.headD []).length).map fun j => listMean (X.map (fun r => r.getD j 0))

/-- Column population variances of a rectangular matrix. -/
def colVars (X : List (List ℚ)) : List ℚ :=
  (List.range (X.headD []).length).map fun j => listVar (X.map (fun r => r.getD j 0))

/-- AnomalyDetector.update_model from anomaly_detector.py, with the
    scikit-learn fitting semantics of the two calls it makes:
    scaler.fit_transform first resets the fitted state of the scaler and
    only then validates its input, so a validation failure there leaves the
    scaler unfitted; a successful fit stores the column statistics and the
    forest is then refitted on the scaled matrix.  The try/except of the
    source catches any raised error and returns False, keeping whatever
    state mutations already happened.  Persistence (joblib dump) is
    boundary behaviour and not modelled. -/
def update_model (st : AnomalyModelState) (training_data : List (List ℚ)) :
    Bool × AnomalyModelState :=
  match npArray2D training_data with
  | .error _ => (false, st)
  | .ok X =>
    if scalerInputValid X = true then
      let sc := ScalerState.fitted (colMeans X) (colVars X)
      (true, { scaler := sc, forest := ForestState.fitted sc X })
    else
      (false, { st with scaler := ScalerState.unfitted })

/-- The bootstrap dummy_data of the AnomalyDetector constructor. -/
def dummy_data : List (List ℚ) :=
  [[10, 5, 2, 25], [12, 6, 3, 26], [11, 11/2, 5/2, 51/2]]

/-- The cold-start state of AnomalyDetector.__init__: scaler fitted on
    dummy_data, forest fitted on the scaled dummy_data. -/
def bootstrapState : AnomalyModelState :=
  { scaler := ScalerState.fitted (colMeans dummy_data) (colVars dummy_data),
    forest := ForestState.fitted
      (ScalerState.fitted (colMeans dummy_data) (colVars dummy_data)) dummy_data }

/-- clamp from app.py. -/
def clamp (value min_value max_value : ℚ) : ℚ :=
  max min_value (min value max_value)

/-- score_turbidity from app.py (None yields the neutral default 60). -/
def score_turbidity : Option ℚ → ℚ
  | none => 60
  | some turbidity => clamp (100 - (clamp turbidity 0 50 / 50) * 100) 0 100

/-- score_conductivity from app.py. -/
def score_conductivity : Option ℚ → ℚ
  | none => 65
  | some conductivity => clamp (100 - ((clamp conductivity 0 1500 - 250) / 1250) * 100) 0 100

/-- score_temperature from app.py. -/
def score_temperature : Option ℚ → ℚ
  | none => 70
  | some temperature =>
    if 15 ≤ temperature ∧ temperature ≤ 30 then 100
    else clamp (100 - (min |temperature - 45/2| 15 / 15) * 100) 0 100

/-- score_ph from app.py. -/
def score_ph : Option ℚ → ℚ
  | none => 70
  | some ph =>
    if 3 ≤ |ph - 37/5| then 0
    else clamp (100 - (|ph - 37/5| / 3) * 100) 0 100

/-- Classification dict of classify_wqi. -/
structure WqiClass where
  status : String
  color : String
  indicator : String
  message : String
deriving DecidableEq

/-- classify_wqi from app.py. -/
def classify_wqi (wqi : ℚ) : WqiClass :=
  if 80 ≤ wqi then
    { status := "good", color := "green", indicator := "🟢",
      message := "Water quality is good and safe for supply." }
  else if 60 ≤ wqi then
    { status := "average", color := "yellow", indicator := "🟡",
      message := "Water quality is acceptable but should be monitored." }
  else
    { status := "bad", color := "red", indicator := "🔴",
      message := "Water quality is poor. Immediate action required." }

/-- Round half to even on an exact rational, the Python round semantics
    (the binary float representation error of the source is not modelled;
    the rounding rule is). -/
def roundHalfEven (x : ℚ) : ℤ :=
  let f : ℤ := ⌊x⌋
  if x - (f : ℚ) < 1/2 then f
  else if (1/2 : ℚ) < x - (f : ℚ) then f + 1
  else if f % 2 = 0 then f else f + 1

/-- round(x, 2) of Python. -/
def pyRound2 (x : ℚ) : ℚ := ((roundHalfEven (x * 100) : ℤ) : ℚ) / 100

/-- The merged dict of calculate_water_quality: the wqi plus the spread
    classification. -/
structure WaterQuality where
  wqi : ℚ
  status : String
  color : String
  indicator : String
  message : String
deriving DecidableEq

/-- calculate_water_quality from app.py: weighted sub-scores rounded to two
    decimals, then classified. -/
def calculate_water_quality (turbidity ph temperature conductivity : Option ℚ) :
    WaterQuality :=
  let wqi := pyRound2 (score_turbidity turbidity * (3/10) + score_ph ph * (3/10)
    + score_temperature temperature * (1/5) + score_conductivity conductivity * (1/5))
  let c := classify_wqi wqi
  { wqi := wqi, status := c.status, color := c.color,
    indicator := c.indicator, message := c.message }

/-- Telemetry read out of the request body by the analyze route; flow_rate,
    pressure, turbidity and temperature default to 0, the rest to None. -/
structure TelemetrySample where
  flow_rate : Option ℚ
  pressure : Option ℚ
  turbidity : Option ℚ
  temperature : Option ℚ
  ph : Option ℚ
  conductivity : Option ℚ
  gps_lat : Option ℚ
  gps_lon : Option ℚ
deriving DecidableEq, Inhabited

/-- Merged result dict of the analyze route. -/
structure OrchestratedResult where
  anomaly_detected : Bool
  anomaly_type : Option String
  severity : String
  confidence : ℚ
  gps_estimate : Option GpsEstimate
  recommended_action : String
  water_quality : WaterQuality
  leak_details : Option LeakResult
  contamination_details : Option ContaminationResult
deriving DecidableEq

/-- The analyze orchestration of app.py (evaluate_sample of the spec):
    anomaly classification, conditional leak detection on leak or pressure
    anomaly types, conditional contamination detection on contamination or
    turbidity anomaly types, unconditional water quality scoring, and the
    merge.  The description field of the merged dict is omitted with the
    anomaly description; the trained model is the score parameter as in
    AnomalyDetector.detect. -/
def evaluate_sample (score : ℚ → ℚ → ℚ → ℚ → Bool × ℚ) (s : TelemetrySample) :
    OrchestratedResult :=
  let flow_rate := s.flow_rate.getD 0
  let pressure := s.pressure.getD 0
  let turbidity := s.turbidity.getD 0
  let temperature := s.temperature.getD 0
  let anomaly_result := AnomalyDetector.detect score flow_rate pressure turbidity temperature
  let leak_result : Option LeakResult :=
    if anomaly_result.anomaly_detected = true
        ∧ (anomaly_result.anomaly_type = some ("leak")
           ∨ anomaly_result.anomaly_type = some ("pressure_anomaly")) then
      some (LeakDetector.detect pressure flow_rate s.gps_lat s.gps_lon)
    else none
  let contamination_result : Option ContaminationResult :=
    if anomaly_result.anomaly_detected = true
        ∧ (anomaly_result.anomaly_type = some ("contamination")
           ∨ anomaly_result.anomaly_type = some ("turbidity_anomaly")) then
      some (ContaminationDetector.detect turbidity temperature s.gps_lat s.gps_lon)
    else none
  let water_quality := calculate_water_quality (some turbidity) s.ph (some temperature)
    s.conductivity
  { anomaly_detected := anomaly_result.anomaly_detected,
    anomaly_type := anomaly_result.anomaly_type,
    severity := anomaly_result.severity,
    confidence := anomaly_result.confidence,
    gps_estimate :=
      match leak_result with
      | some lr => lr.gps_estimate
      | none => none,
    recommended_action := anomaly_result.recommended_action,
    water_quality := water_quality,
    leak_details := leak_result,
    contamination_details := contamination_result }

/-- The insufficient-data result dict of LeakDetector.detect_with_history. -/
def insufficientLeakHist : LeakHistResult :=
  { leak_detected := false, confidence := 0,
    message := some ("Insufficient data for leak detection"),
    leak_location_estimate := none, pressure_drop := none }

/-- The insufficient-data result dict of MaintenancePredictor.predict. -/
def insufficientMaintenance : MaintenanceResult :=
  { maintenance_needed := false, days_until_maintenance := none, urgency := none,
    confidence := 0,
    message := some ("Insufficient historical data (need at least 30 readings)"),
    recommended_actions := none }

/-- The insufficient-data result dict of ContaminationDetector.detect_pattern. -/
def insufficientPattern : PatternResult :=
  { contamination_detected := false, spike_detected := none, increasing_trend := none,
    current_turbidity := none, baseline_turbidity := none, confidence := none,
    message := some ("Insufficient data") }

lemma detectCore_rule1 (p f : ℚ) (h : p < 2 ∧ 0 < f) :
    LeakDetector.detectCore p f = (true, 7/10) := by
  unfold LeakDetector.detectCore
  rw [if_pos h]

lemma detectCore_rule2 (p f : ℚ) (h1 : p < 3/2) (h2 : ¬ 0 < f) :
    LeakDetector.detectCore p f = (true, 9/10) := by
  unfold LeakDetector.detectCore
  rw [if_neg (fun hc => h2 hc.2), if_pos h1]

lemma detectCore_rule3 (p f : ℚ) (h1 : 50 < f) (h2 : 2 ≤ p) (h3 : p < 3) :
    LeakDetector.detectCore p f = (true, 4/5) := by
  have n1 : ¬ (p < 2 ∧ 0 < f) := fun hc => absurd hc.1 (not_lt.mpr h2)
  have n2 : ¬ p < 3/2 := by linarith
  unfold LeakDetector.detectCore
  rw [if_neg n1, if_neg n2, if_pos ⟨h1, h3⟩]

lemma leak_detect_leak_detected (p f : ℚ) (glat glon : Option ℚ) :
    (LeakDetector.detect p f glat glon).leak_detected = (LeakDetector.detectCore p f).1 := rfl

lemma leak_detect_confidence (p f : ℚ) (glat glon : Option ℚ) :
    (LeakDetector.detect p f glat glon).confidence = (LeakDetector.detectCore p f).2 := rfl

/-- Claim C1 counterexample: at pressure 1 bar (below 1.5) with flow rate 1,
    the first rule of the cascade fires and the result has confidence 0.7,
    so the 0.9 rule does not override the 0.7 rule as claimed. -/
theorem leak_detect_pressure_override_cex :
    (1 : ℚ) < 3/2
    ∧ (LeakDetector.detect 1 1 none none).leak_detected = true
    ∧ (LeakDetector.detect 1 1 none none).confidence = 7/10
    ∧ (7/10 : ℚ) ≠ 9/10 := by
  refine ⟨by norm_num, ?_, ?_, by norm_num⟩
  · rw [leak_detect_leak_detected, detectCore_rule1 1 1 (by norm_num)]
  · rw [leak_detect_confidence, detectCore_rule1 1 1 (by norm_num)]

/-- Claim C1 (amended): in LeakDetector.detect the rule pressure < 2.0 with
    flow_rate > 0 fires first with confidence 0.7 and takes precedence; the
    0.9 rule applies only when pressure < 1.5 and flow_rate ≤ 0; the 0.8
    rule applies only when flow_rate > 50 and 2 ≤ pressure < 3. -/
theorem leak_detect_rule_precedence (p f : ℚ) :
    ((p < 2 ∧ 0 < f) →
      (LeakDetector.detect p f none none).leak_detected = true
      ∧ (LeakDetector.detect p f none none).confidence = 7/10)
  ∧ ((p < 3/2 ∧ ¬ 0 < f) →
      (LeakDetector.detect p f none none).leak_detected = true
      ∧ (LeakDetector.detect p f none none).confidence = 9/10)
  ∧ ((50 < f ∧ 2 ≤ p ∧ p < 3) →
      (LeakDetector.detect p f none none).leak_detected = true
      ∧ (LeakDetector.detect p f none none).confidence = 4/5) := by
  refine ⟨fun h => ⟨?_, ?_⟩, fun h => ⟨?_, ?_⟩, fun h => ⟨?_, ?_⟩⟩
  · rw [leak_detect_leak_detected, detectCore_rule1 p f h]
  · rw [leak_detect_confidence, detectCore_rule1 p f h]
  · rw [leak_detect_leak_detected, detectCore_rule2 p f h.1 h.2]
  · rw [leak_detect_confidence, detectCore_rule2 p f h.1 h.2]
  · rw [leak_detect_leak_detected, detectCore_rule3 p f h.1 h.2.1 h.2.2]
  · rw [leak_detect_confidence, detectCore_rule3 p f h.1 h.2.1 h.2.2]

/-- Witness for the C1 theorem at pressure 1, flow 60. -/
theorem leak_detect_rule_precedence_witness :
    (LeakDetector.detect 1 60 none none).leak_detected = true
    ∧ (LeakDetector.detect 1 60 none none).confidence = 7/10 :=
  (leak_detect_rule_precedence 1 60).1 (by norm_num)

lemma anomaly_detect_pos (score : ℚ → ℚ → ℚ → ℚ → Bool × ℚ) (f p tb te : ℚ)
    (h : (score f p tb te).1 = true) :
    AnomalyDetector.detect score f p tb te =
      { anomaly_detected := true,
        anomaly_type := some ((AnomalyDetector.classify f p tb).1),
        severity := (AnomalyDetector.classify f p tb).2,
        confidence := min (|(score f p tb te).2| * 100) 100,
        recommended_action :=
          AnomalyDetector.get_recommended_action (AnomalyDetector.classify f p tb).1 } := by
  unfold AnomalyDetector.detect
  rw [if_pos h]

lemma classify_pressure_12 (t : ℚ) :
    AnomalyDetector.classify 10 (6/5) t = ("pressure_anomaly", "high") := by
  unfold AnomalyDetector.classify
  rw [if_pos (Or.inl (by norm_num)), if_neg (by norm_num : ¬ (6/5 : ℚ) < 1),
    if_pos (by norm_num : (6/5 : ℚ) < 3/2)]

/-- Claim C2 counterexample: at pressure 1.2 and flow 10 with the outlier
    model flagging the sample, the cascade assigns pressure_anomaly but
    severity high, not critical (1.2 is not below the critical bound 1). -/
theorem anomaly_pressure_scenario_cex :
    (AnomalyDetector.detect (fun _ _ _ _ => (true, -(1/2))) 10 (6/5) 0 25).anomaly_detected
      = true
    ∧ (AnomalyDetector.detect (fun _ _ _ _ => (true, -(1/2))) 10 (6/5) 0 25).anomaly_type
      = some ("pressure_anomaly")
    ∧ (AnomalyDetector.detect (fun _ _ _ _ => (true, -(1/2))) 10 (6/5) 0 25).severity
      ≠ "critical" := by
  have e := anomaly_detect_pos (fun _ _ _ _ => (true, -(1/2))) 10 (6/5) 0 25 rfl
  rw [e, classify_pressure_12]
  refine ⟨rfl, rfl, by decide⟩

/-- Claim C2 (amended): with input pressure 1.2 and flow_rate 10, whenever
    the outlier model flags the sample, the ordered cascade assigns
    anomaly_type pressure_anomaly (the pressure rule fires first) and
    severity high. -/
theorem anomaly_pressure_scenario_severity (score : ℚ → ℚ → ℚ → ℚ → Bool × ℚ)
    (t temp : ℚ) (h : (score 10 (6/5) t temp).1 = true) :
    (AnomalyDetector.detect score 10 (6/5) t temp).anomaly_type = some ("pressure_anomaly")
    ∧ (AnomalyDetector.detect score 10 (6/5) t temp).severity = "high" := by
  rw [anomaly_detect_pos score 10 (6/5) t temp h, classify_pressure_12]
  exact ⟨rfl, rfl⟩

/-- Witness for the C2 theorem with a model that always flags. -/
theorem anomaly_pressure_scenario_severity_witness :
    (AnomalyDetector.detect (fun _ _ _ _ => (true, 1)) 10 (6/5) 3 20).anomaly_type
      = some ("pressure_anomaly")
    ∧ (AnomalyDetector.detect (fun _ _ _ _ => (true, 1)) 10 (6/5) 3 20).severity = "high" :=
  anomaly_pressure_scenario_severity (fun _ _ _ _ => (true, 1)) 3 20 rfl

/-- Claim C3 evidence: retraining a freshly bootstrapped detector on an
    empty training list returns failure, as the try/except intends, but the
    scaler has been reset by the failed fit_transform and is left unfitted
    while the forest keeps its old fit: the state is half-updated, not left
    exactly as before the call. -/
theorem update_model_empty_input_mutates_state :
    update_model bootstrapState [] =
      (false, { scaler := ScalerState.unfitted, forest := bootstrapState.forest })
    ∧ bootstrapState.scaler ≠ ScalerState.unfitted := by
  refine ⟨rfl, ?_⟩
  simp [bootstrapState]

/-- Claim C4 counterexample: the insufficient-data result of
    ContaminationDetector.detect_pattern carries no confidence key at all
    (none in the embedding), so its confidence field is not 0 as claimed. -/
theorem detect_pattern_confidence_absent_cex :
    (ContaminationDetector.detect_pattern [1, 1, 1, 1] []).contamination_detected = false
    ∧ (ContaminationDetector.detect_pattern [1, 1, 1, 1] []).confidence = none
    ∧ (none : Option ℚ) ≠ some 0 := by
  refine ⟨rfl, rfl, by simp⟩

/-- Claim C4 (amended): each insufficient-history gate returns its typed
    insufficient-data value and raises nothing: leak history below 10
    points and maintenance history below 30 records yield detected false
    with confidence 0 and a message; a contamination pattern below 5 points
    yields detected false with a message but omits the confidence field. -/
theorem insufficient_history_results (pd fd th te : List ℚ)
    (f : List MaintRecord → ℚ) (hd : List MaintRecord) :
    (pd.length < 10 ∨ fd.length < 10 →
      LeakDetector.detect_with_history pd fd = Except.ok insufficientLeakHist)
  ∧ (hd.length < 30 →
      MaintenancePredictor.predict f hd = insufficientMaintenance)
  ∧ (th.length < 5 →
      ContaminationDetector.detect_pattern th te = insufficientPattern) := by
  refine ⟨fun h => ?_, fun h => ?_, fun h => ?_⟩
  · unfold LeakDetector.detect_with_history
    rw [if_pos h]
    rfl
  · unfold MaintenancePredictor.predict
    rw [if_pos h]
    rfl
  · unfold ContaminationDetector.detect_pattern
    rw [if_pos h]
    rfl

/-- Witness for the C4 theorem on empty histories. -/
theorem insufficient_history_results_witness :
    LeakDetector.detect_with_history [] [] = Except.ok insufficientLeakHist
    ∧ MaintenancePredictor.predict (fun _ => 0) [] = insufficientMaintenance
    ∧ ContaminationDetector.detect_pattern [] [] = insufficientPattern :=
  ⟨(insufficient_history_results [] [] [] [] (fun _ => 0) []).1 (Or.inl (by decide)),
   (insufficient_history_results [] [] [] [] (fun _ => 0) []).2.1 (by decide),
   (insufficient_history_results [] [] [] [] (fun _ => 0) []).2.2 (by decide)⟩

/-- Claim C5 counterexample: two series that both have at least 10 points
    but different lengths make the correlation computation of
    detect_with_history raise instead of producing a confidence. -/
theorem detect_with_history_length_mismatch_cex :
    10 ≤ (List.replicate 10 (5 : ℚ)).length
    ∧ 10 ≤ (List.replicate 11 (2 : ℚ)).length
    ∧ LeakDetector.detect_with_history (List.replicate 10 (5 : ℚ)) (List.replicate 11 (2 : ℚ))
      = Except.error "np.corrcoef: x and y must have the same length" := by
  refine ⟨by simp, by simp, rfl⟩

/-- Claim C5 (amended): for equal-length series of at least 10 points each,
    the fused confidence is the sum of the weights 0.4, 0.3, 0.3 of exactly
    the gradient, correlation and statistical signals that fire, capped at
    1.0 by min and hence never above 1.0; with fewer than 10 points in
    either series the result is the insufficient-data value with confidence
    0; series of unequal lengths (both at least 10) raise an error from the
    correlation computation instead of returning a result. -/
theorem detect_with_history_confidence_cap (pd fd : List ℚ) :
    (pd.length < 10 ∨ fd.length < 10 →
      LeakDetector.detect_with_history pd fd = Except.ok insufficientLeakHist)
  ∧ (10 ≤ pd.length → 10 ≤ fd.length → pd.length = fd.length →
      ∃ r, LeakDetector.detect_with_history pd fd = Except.ok r
        ∧ r.confidence =
            min ((if listMin (npGradient pd) < -(3/10) then (2/5 : ℚ) else 0)
              + (if corrBelowNegHalf pd fd = true then (3/10 : ℚ) else 0)
              + (if statOutlier pd = true then (3/10 : ℚ) else 0)) 1
        ∧ r.confidence ≤ 1)
  ∧ (∀ r, LeakDetector.detect_with_history pd fd = Except.ok r → r.confidence ≤ 1) := by
  refine ⟨fun h => ?_, fun h1 h2 h3 => ?_, fun r hr => ?_⟩
  · unfold LeakDetector.detect_with_history
    rw [if_pos h]
    rfl
  · have hn : ¬ (pd.length < 10 ∨ fd.length < 10) :=
      not_or.mpr ⟨not_lt.mpr h1, not_lt.mpr h2⟩
    unfold LeakDetector.detect_with_history
    rw [if_neg hn, if_pos h3]
    exact ⟨_, rfl, rfl, min_le_right _ _⟩
  · unfold LeakDetector.detect_with_history at hr
    by_cases hc : pd.length < 10 ∨ fd.length < 10
    · rw [if_pos hc] at hr
      injection hr with h
      rw [← h]
      norm_num
    · rw [if_neg hc] at hr
      by_cases he : pd.length = fd.length
      · rw [if_pos he] at hr
        injection hr with h
        rw [← h]
        exact min_le_right _ _
      · rw [if_neg he] at hr
        exact Except.noConfusion hr

/-- Witness for the C5 theorem: the insufficient branch on empty series and
    the main branch on a concrete pair of equal 10-point series. -/
theorem detect_with_history_confidence_cap_witness :
    (LeakDetector.detect_with_history [] [] = Except.ok insufficientLeakHist)
    ∧ ∃ r, LeakDetector.detect_with_history
          [5, 5, 5, 5, 5, 4, 4, 4, 4, 4] [5, 5, 5, 5, 5, 4, 4, 4, 4, 4] = Except.ok r
        ∧ r.confidence =
            min ((if listMin (npGradient [5, 5, 5, 5, 5, 4, 4, 4, 4, 4]) < -(3/10)
                   then (2/5 : ℚ) else 0)
              + (if corrBelowNegHalf [5, 5, 5, 5, 5, 4, 4, 4, 4, 4]
                   [5, 5, 5, 5, 5, 4, 4, 4, 4, 4] = true then (3/10 : ℚ) else 0)
              + (if statOutlier [5, 5, 5, 5, 5, 4, 4, 4, 4, 4] = true
                   then (3/10 : ℚ) else 0)) 1
        ∧ r.confidence ≤ 1 :=
  ⟨(detect_with_history_confidence_cap [] []).1 (Or.inl (by decide)),
   (detect_with_history_confidence_cap [5, 5, 5, 5, 5, 4, 4, 4, 4, 4]
      [5, 5, 5, 5, 5, 4, 4, 4, 4, 4]).2.1 (by decide) (by decide) rfl⟩

/-- Claim C6 counterexample: a single-record history returns confidence 0
    from the insufficient branch, while min(1/100, 1) is 1/100, so the
    formula does not hold for every history length. -/
theorem predict_confidence_small_history_cex :
    ([(default : MaintRecord)].length = 1)
    ∧ (MaintenancePredictor.predict (fun _ => 0) [default]).confidence = 0
    ∧ min ((1 : ℚ) / 100) 1 ≠ 0 := by
  refine ⟨rfl, rfl, by norm_num⟩

/-- Claim C6 (amended): for every history of at least 30 records the
    returned confidence is exactly min(record count / 100, 1), for every
    prediction model and hence independent of the prediction outcome. -/
theorem predict_confidence_formula (f : List MaintRecord → ℚ) (hd : List MaintRecord)
    (h : 30 ≤ hd.length) :
    (MaintenancePredictor.predict f hd).confidence = min ((hd.length : ℚ) / 100) 1 := by
  unfold MaintenancePredictor.predict
  rw [if_neg (not_lt.mpr h)]

/-- Witness for the C6 theorem on 30 default records. -/
theorem predict_confidence_formula_witness :
    (MaintenancePredictor.predict (fun _ => 0)
        (List.replicate 30 (default : MaintRecord))).confidence
      = min (((List.replicate 30 (default : MaintRecord)).length : ℚ) / 100) 1 :=
  predict_confidence_formula (fun _ => 0) (List.replicate 30 default) (by simp)

lemma band_crit (t : ℚ) (h : 10 ≤ t) :
    ContaminationDetector.turbidityBand t = (true, "critical", 19/20) := by
  unfold ContaminationDetector.turbidityBand
  rw [if_pos h]

lemma band_high (t : ℚ) (h7 : 7 ≤ t) (h10 : t < 10) :
    ContaminationDetector.turbidityBand t = (true, "high", 4/5) := by
  unfold ContaminationDetector.turbidityBand
  rw [if_neg (not_le.mpr h10), if_pos h7]

lemma band_med (t : ℚ) (h5 : 5 ≤ t) (h7 : t < 7) :
    ContaminationDetector.turbidityBand t = (true, "medium", 3/5) := by
  unfold ContaminationDetector.turbidityBand
  rw [if_neg (not_le.mpr (h7.trans (by norm_num))), if_neg (not_le.mpr h7), if_pos h5]

lemma band_low (t : ℚ) (h : t < 5) :
    ContaminationDetector.turbidityBand t = (false, "low", 0) := by
  unfold ContaminationDetector.turbidityBand
  rw [if_neg (not_le.mpr (h.trans (by norm_num))),
    if_neg (not_le.mpr (h.trans (by norm_num))), if_neg (not_le.mpr h)]

lemma core_normal_temp (t temp : ℚ) (h : ¬ (temp < 15 ∨ 35 < temp)) :
    ContaminationDetector.core t temp = ContaminationDetector.turbidityBand t := by
  unfold ContaminationDetector.core
  rw [if_neg h]

lemma core_temp_anomaly_detected (t temp : ℚ) (h : temp < 15 ∨ 35 < temp)
    (hb : (ContaminationDetector.turbidityBand t).1 = true) :
    ContaminationDetector.core t temp =
      (true, (ContaminationDetector.turbidityBand t).2.1,
        min ((ContaminationDetector.turbidityBand t).2.2 + 1/10) 1) := by
  unfold ContaminationDetector.core
  rw [if_pos h, if_pos hb]

lemma core_temp_anomaly_clean (t temp : ℚ) (h : temp < 15 ∨ 35 < temp)
    (hb : ¬ (ContaminationDetector.turbidityBand t).1 = true) :
    ContaminationDetector.core t temp = (true, "low", 1/2) := by
  unfold ContaminationDetector.core
  rw [if_pos h, if_neg hb]

lemma cont_detected_eq (t temp : ℚ) (glat glon : Option ℚ) :
    (ContaminationDetector.detect t temp glat glon).contamination_detected
      = (ContaminationDetector.core t temp).1 := rfl

lemma cont_severity_eq (t temp : ℚ) (glat glon : Option ℚ) :
    (ContaminationDetector.detect t temp glat glon).severity
      = (ContaminationDetector.core t temp).2.1 := rfl

lemma cont_confidence_eq (t temp : ℚ) (glat glon : Option ℚ) :
    (ContaminationDetector.detect t temp glat glon).confidence
      = (ContaminationDetector.core t temp).2.2 := rfl

/-- Claim C7: the turbidity severity bands of ContaminationDetector.detect
    (critical at 10 NTU and above with confidence 0.95, high on [7, 10)
    with 0.8, medium on [5, 7) with 0.6), and the temperature adjustment
    outside [15, 35] degrees: an already detected contamination gets its
    confidence raised by 0.1 capped at 1, otherwise the result is detected
    with severity low and confidence 0.5. -/
theorem contamination_detect_bands (t temp : ℚ) (glat glon : Option ℚ) :
    (¬ (temp < 15 ∨ 35 < temp) →
      ((10 ≤ t →
          (ContaminationDetector.detect t temp glat glon).contamination_detected = true
          ∧ (ContaminationDetector.detect t temp glat glon).severity = "critical"
          ∧ (ContaminationDetector.detect t temp glat glon).confidence = 19/20)
      ∧ (7 ≤ t → t < 10 →
          (ContaminationDetector.detect t temp glat glon).contamination_detected = true
          ∧ (ContaminationDetector.detect t temp glat glon).severity = "high"
          ∧ (ContaminationDetector.detect t temp glat glon).confidence = 4/5)
      ∧ (5 ≤ t → t < 7 →
          (ContaminationDetector.detect t temp glat glon).contamination_detected = true
          ∧ (ContaminationDetector.detect t temp glat glon).severity = "medium"
          ∧ (ContaminationDetector.detect t temp glat glon).confidence = 3/5)))
  ∧ ((temp < 15 ∨ 35 < temp) →
      ((10 ≤ t →
          (ContaminationDetector.detect t temp glat glon).contamination_detected = true
          ∧ (ContaminationDetector.detect t temp glat glon).severity = "critical"
          ∧ (ContaminationDetector.detect t temp glat glon).confidence
            = min (19/20 + 1/10) 1)
      ∧ (7 ≤ t → t < 10 →
          (ContaminationDetector.detect t temp glat glon).contamination_detected = true
          ∧ (ContaminationDetector.detect t temp glat glon).severity = "high"
          ∧ (ContaminationDetector.detect t temp glat glon).confidence
            = min (4/5 + 1/10) 1)
      ∧ (5 ≤ t → t < 7 →
          (ContaminationDetector.detect t temp glat glon).contamination_detected = true
          ∧ (ContaminationDetector.detect t temp glat glon).severity = "medium"
          ∧ (ContaminationDetector.detect t temp glat glon).confidence
            = min (3/5 + 1/10) 1)
      ∧ (t < 5 →
          (ContaminationDetector.detect t temp glat glon).contamination_detected = true
          ∧ (ContaminationDetector.detect t temp glat glon).severity = "low"
          ∧ (ContaminationDetector.detect t temp glat glon).confidence = 1/2))) := by
  constructor
  · intro hn
    refine ⟨fun h10 => ?_, fun h7 h10 => ?_, fun h5 h7 => ?_⟩
    · have e : ContaminationDetector.core t temp = (true, "critical", 19/20) := by
        rw [core_normal_temp t temp hn, band_crit t h10]
      exact ⟨by rw [cont_detected_eq, e], by rw [cont_severity_eq, e],
        by rw [cont_confidence_eq, e]⟩
    · have e : ContaminationDetector.core t temp = (true, "high", 4/5) := by
        rw [core_normal_temp t temp hn, band_high t h7 h10]
      exact ⟨by rw [cont_detected_eq, e], by rw [cont_severity_eq, e],
        by rw [cont_confidence_eq, e]⟩
    · have e : ContaminationDetector.core t temp = (true, "medium", 3/5) := by
        rw [core_normal_temp t temp hn, band_med t h5 h7]
      exact ⟨by rw [cont_detected_eq, e], by rw [cont_severity_eq, e],
        by rw [cont_confidence_eq, e]⟩
  · intro ha
    refine ⟨fun h10 => ?_, fun h7 h10 => ?_, fun h5 h7 => ?_, fun h5 => ?_⟩
    · have e : ContaminationDetector.core t temp
          = (true, "critical", min (19/20 + 1/10) 1) := by
        rw [core_temp_anomaly_detected t temp ha (by rw [band_crit t h10]),
          band_crit t h10]
      exact ⟨by rw [cont_detected_eq, e], by rw [cont_severity_eq, e],
        by rw [cont_confidence_eq, e]⟩
    · have e : ContaminationDetector.core t temp
          = (true, "high", min (4/5 + 1/10) 1) := by
        rw [core_temp_anomaly_detected t temp ha (by rw [band_high t h7 h10]),
          band_high t h7 h10]
      exact ⟨by rw [cont_detected_eq, e], by rw [cont_severity_eq, e],
        by rw [cont_confidence_eq, e]⟩
    · have e : ContaminationDetector.core t temp
          = (true, "medium", min (3/5 + 1/10) 1) := by
        rw [core_temp_anomaly_detected t temp ha (by rw [band_med t h5 h7]),
          band_med t h5 h7]
      exact ⟨by rw [cont_detected_eq, e], by rw [cont_severity_eq, e],
        by rw [cont_confidence_eq, e]⟩
    · have hb : ¬ (ContaminationDetector.turbidityBand t).1 = true := by
        rw [band_low t h5]
        decide
      have e := core_temp_anomaly_clean t temp ha hb
      exact ⟨by rw [cont_detected_eq, e], by rw [cont_severity_eq, e],
        by rw [cont_confidence_eq, e]⟩

/-- Witness for the C7 theorem: a critical band with normal temperature and
    a temperature-only detection. -/
theorem contamination_detect_bands_witness :
    ((ContaminationDetector.detect 12 20 none none).contamination_detected = true
    ∧ (ContaminationDetector.detect 12 20 none none).severity = "critical"
    ∧ (ContaminationDetector.detect 12 20 none none).confidence = 19/20)
    ∧ ((ContaminationDetector.detect 1 40 none none).contamination_detected = true
    ∧ (ContaminationDetector.detect 1 40 none none).severity = "low"
    ∧ (ContaminationDetector.detect 1 40 none none).confidence = 1/2) :=
  ⟨((contamination_detect_bands 12 20 none none).1 (by norm_num)).1 (by norm_num),
   ((contamination_detect_bands 1 40 none none).2 (by norm_num)).2.2.2 (by norm_num)⟩

lemma score_turbidity_some (t : ℚ) :
    score_turbidity (some t) = clamp (100 - (clamp t 0 50 / 50) * 100) 0 100 := rfl

lemma score_turbidity_in_range (t : ℚ) (h0 : 0 ≤ t) (h50 : t ≤ 50) :
    score_turbidity (some t) = 100 - 2 * t := by
  rw [score_turbidity_some]
  unfold clamp
  rw [min_eq_left h50, max_eq_right h0]
  have e : 100 - t / 50 * 100 = 100 - 2 * t := by ring
  rw [e, min_eq_left (by linarith), max_eq_right (by linarith)]

lemma score_turbidity_ge50 (t : ℚ) (h : 50 ≤ t) : score_turbidity (some t) = 0 := by
  rw [score_turbidity_some]
  unfold clamp
  rw [min_eq_right h]
  norm_num

/-- Claim C8: on [0, 50] score_turbidity is monotonically non-increasing,
    equals exactly 100 at 0, and equals exactly 0 at every turbidity of at
    least 50. -/
theorem score_turbidity_monotone (t1 t2 : ℚ) :
    (0 ≤ t1 → t1 ≤ t2 → t2 ≤ 50 →
      score_turbidity (some t2) ≤ score_turbidity (some t1))
  ∧ score_turbidity (some 0) = 100
  ∧ (50 ≤ t1 → score_turbidity (some t1) = 0) := by
  refine ⟨fun h0 h12 h50 => ?_, ?_, fun h => score_turbidity_ge50 t1 h⟩
  · rw [score_turbidity_in_range t1 h0 (le_trans h12 h50),
      score_turbidity_in_range t2 (le_trans h0 h12) h50]
    linarith
  · rw [score_turbidity_in_range 0 le_rfl (by norm_num)]
    norm_num

/-- Witness for the C8 theorem at turbidity 10 versus 20, 0 and 50. -/
theorem score_turbidity_monotone_witness :
    score_turbidity (some 20) ≤ score_turbidity (some 10)
    ∧ score_turbidity (some 0) = 100
    ∧ score_turbidity (some 50) = 0 :=
  ⟨(score_turbidity_monotone 10 20).1 (by norm_num) (by norm_num) (by norm_num),
   (score_turbidity_monotone 0 0).2.1,
   (score_turbidity_monotone 50 0).2.2 le_rfl⟩

/-- Claim C9: the analyze orchestration is a pure function of the telemetry
    sample and the trained-model state: two evaluations of evaluate_sample
    on identical input with the same model state (no intervening retrain)
    yield identical output. -/
theorem evaluate_sample_deterministic (score : ℚ → ℚ → ℚ → ℚ → Bool × ℚ)
    (s : TelemetrySample) (r1 r2 : OrchestratedResult)
    (h1 : evaluate_sample score s = r1) (h2 : evaluate_sample score s = r2) :
    r1 = r2 := by
  rw [← h1, ← h2]

/-- Witness for the C9 theorem on the default sample. -/
theorem evaluate_sample_deterministic_witness :
    evaluate_sample (fun _ _ _ _ => (false, 0)) default
      = evaluate_sample (fun _ _ _ _ => (false, 0)) default :=
  evaluate_sample_deterministic (fun _ _ _ _ => (false, 0)) default _ _ rfl rfl

/-- Claim C10: in both LeakDetector.detect and ContaminationDetector.detect
    a coordinate equal to 0 is falsy, so a detected issue still carries
    gps_estimate none, exactly as when the coordinate is absent. -/
theorem gps_zero_coordinate_none (p f t temp : ℚ) (glat glon : Option ℚ) :
    ((glat = some 0 ∨ glon = some 0) →
      (LeakDetector.detect p f glat glon).gps_estimate = none
      ∧ (ContaminationDetector.detect t temp glat glon).gps_estimate = none)
  ∧ LeakDetector.detect p f (some 0) glon = LeakDetector.detect p f none glon
  ∧ ContaminationDetector.detect t temp glat (some 0)
      = ContaminationDetector.detect t temp glat none := by
  refine ⟨fun h => ⟨?_, ?_⟩, ?_, ?_⟩
  · rcases h with h | h <;> subst h <;> simp [LeakDetector.detect, truthy]
  · rcases h with h | h <;> subst h <;> simp [ContaminationDetector.detect, truthy]
  · simp [LeakDetector.detect, truthy]
  · simp [ContaminationDetector.detect, truthy]

/-- Witness for the C10 theorem on a detected leak and contamination at an
    equator coordinate. -/
theorem gps_zero_coordinate_none_witness :
    (LeakDetector.detect 1 1 (some 0) (some 7)).gps_estimate = none
    ∧ (ContaminationDetector.detect 12 20 (some 0) (some 7)).gps_estimate = none :=
  (gps_zero_coordinate_none 1 1 12 20 (some 0) (some 7)).1 (Or.inl rfl)
